import Mathlib

/-!
Verification of the `set_temporary_tmpdir` routine of the ultra sampler shim
(src/Ultra.Sampler/ultra_sampler_hook.cpp and ultra_sampler_indirect.cpp).

C strings are modelled as `List Char`; the process environment and the
filesystem are explicit state; environmental nondeterminism (malloc failure,
mkdir failure, setenv failure, the callback terminating abnormally) is an
oracle record `World`; observable behaviour is an event trace.
-/

namespace Ultra

/-- A C string (the bytes before the NUL terminator). -/
abbrev CStr := List Char

/-- 2^64, the modulus of `size_t` arithmetic on the 64-bit target. -/
def SIZE_T_MOD : Nat := 18446744073709551616

/-- The errno value EEXIST (17 on the target platforms). -/
def EEXIST : Nat := 17

/-- `strlen`: number of characters before the NUL terminator. -/
def strlen (s : CStr) : Nat := s.length

/-- The index `original_tmpdir_len - 1` computed in `size_t` arithmetic,
as in `original_tmpdir[original_tmpdir_len - 1]`. -/
def trailing_index (len : Nat) : Nat := (len + (SIZE_T_MOD - 1)) % SIZE_T_MOD

/-- Whether reading byte `i` of the buffer holding C string `s` is in
bounds: the readable bytes are indices `0 .. strlen s` (the last one holds
the NUL terminator). -/
def index_in_bounds (s : CStr) (i : Nat) : Bool := i ≤ strlen s

/-- `original_tmpdir[original_tmpdir_len - 1] == '/'`. Total in the model:
for the empty string the source read is out of bounds (see C9) and the
model returns `false`. -/
def has_trailing_slash (s : CStr) : Bool :=
  match s.getLast? with
  | some c => c == '/'
  | none => false

/-- `new_tmpdir_len = original_tmpdir_len + strlen(sub_dir_name) + 1 +
(has_trailing_slash ? 1 : 0)`, from line 26 of ultra_sampler_hook.cpp. -/
def new_tmpdir_len (original sub : CStr) : Nat :=
  strlen original + strlen sub + 1 + (if has_trailing_slash original then 1 else 0)

/-- The string the format `has_trailing_slash ? "%s%s/" : "%s/%s/"` would
produce with arguments `original` and `sub`, before truncation. -/
def snprintf_format (trailing : Bool) (original sub : CStr) : CStr :=
  if trailing then original ++ sub ++ ['/'] else original ++ ['/'] ++ sub ++ ['/']

/-- `snprintf` truncation: at most `size - 1` characters are written,
followed by a NUL terminator (nothing is written when `size = 0`). -/
def snprintf_trunc (size : Nat) (formatted : CStr) : CStr :=
  if size = 0 then [] else formatted.take (size - 1)

/-- The string actually stored in `new_tmpdir` by line 33 of
ultra_sampler_hook.cpp (line 30 of ultra_sampler_indirect.cpp). -/
def computed_new_tmpdir (original sub : CStr) : CStr :=
  snprintf_trunc (new_tmpdir_len original sub)
    (snprintf_format (has_trailing_slash original) original sub)

/-- The process environment: the current value of TMPDIR, `none` if unset. -/
structure Env where
  tmpdir : Option CStr
deriving DecidableEq, Repr

/-- The filesystem: the set of existing directories with their modes. -/
structure FS where
  dirs : List (CStr × Nat)
deriving DecidableEq, Repr

/-- Whether a directory already exists at `path`. -/
def dirExists (fs : FS) (path : CStr) : Bool := fs.dirs.any (fun d => d.1 == path)

/-- Oracle for the environmental nondeterminism of one call: whether
`malloc` succeeds, which errno `mkdir` fails with when the directory is
absent (`none` = creation succeeds), whether each `setenv` succeeds, and
whether the callback returns normally. -/
structure World where
  mallocOk : Bool
  mkdirErrno : Option Nat
  setenvRedirectOk : Bool
  setenvRestoreOk : Bool
  callbackReturns : Bool
deriving DecidableEq, Repr

/-- Outcome of a `mkdir` call. -/
inductive MkdirOut where
  | created
  | failed (errno : Nat)
deriving DecidableEq, Repr

/-- `mkdir(path, mode)`: fails with EEXIST if something already exists at
`path`; otherwise creates the directory, unless the oracle injects an
error. -/
def mkdir (fs : FS) (w : World) (path : CStr) (mode : Nat) : MkdirOut × FS :=
  if dirExists fs path then (.failed EEXIST, fs)
  else
    match w.mkdirErrno with
    | some e => (.failed e, fs)
    | none => (.created, ⟨(path, mode) :: fs.dirs⟩)

/-- The abort test `mkdir(new_tmpdir, 0700) != 0 && errno != EEXIST` of
line 36 of ultra_sampler_hook.cpp. -/
def mkdir_aborts : MkdirOut → Bool
  | .created => false
  | .failed e => e != EEXIST

/-- Observable events of one call. -/
inductive Event where
  | mkdirCreated (path : CStr) (mode : Nat)
  | mkdirAlreadyExists (path : CStr)
  | printDiag (tmpdirSeen : Option CStr)
  | callback (tmpdirSeen : Option CStr)
deriving DecidableEq, Repr

/-- Result of one call: final environment, final filesystem, event trace,
and whether the call never returned because the callback terminated
abnormally. -/
structure Result where
  env : Env
  fs : FS
  events : List Event
  aborted : Bool
deriving DecidableEq, Repr

/-- `set_temporary_tmpdir` of src/Ultra.Sampler/ultra_sampler_hook.cpp,
lines 15-55: read TMPDIR (return if unset), build the redirect path with
`snprintf` into a `malloc`ed buffer, `mkdir` it treating EEXIST as
success, `setenv` TMPDIR to it, run the callback, and restore TMPDIR. -/
def set_temporary_tmpdir (sub_dir_name : CStr) (w : World) (env : Env) (fs : FS) : Result :=
  match env.tmpdir with
  | none => ⟨env, fs, [], false⟩
  | some original_tmpdir =>
    if !w.mallocOk then ⟨env, fs, [], false⟩
    else
      let new_tmpdir := computed_new_tmpdir original_tmpdir sub_dir_name
      let m := mkdir fs w new_tmpdir 0o700
      if mkdir_aborts m.1 then ⟨env, m.2, [], false⟩
      else
        let ev0 := if m.1 = .created then Event.mkdirCreated new_tmpdir 0o700
                   else Event.mkdirAlreadyExists new_tmpdir
        if !w.setenvRedirectOk then ⟨env, m.2, [ev0], false⟩
        else
          let env2 : Env := ⟨some new_tmpdir⟩
          let ev1 := Event.callback env2.tmpdir
          if !w.callbackReturns then ⟨env2, m.2, [ev0, ev1], true⟩
          else
            let env3 := if w.setenvRestoreOk then (⟨some original_tmpdir⟩ : Env) else env2
            ⟨env3, m.2, [ev0, ev1], false⟩

/-- `set_temporary_tmpdir` of src/Ultra.Sampler/ultra_sampler_indirect.cpp,
lines 12-55: identical logic, plus a diagnostic printf of the pid and
`getenv("TMPDIR")` between the redirecting `setenv` and the callback. -/
def set_temporary_tmpdir_indirect (sub_dir_name : CStr) (w : World) (env : Env) (fs : FS) :
    Result :=
  match env.tmpdir with
  | none => ⟨env, fs, [], false⟩
  | some original_tmpdir =>
    if !w.mallocOk then ⟨env, fs, [], false⟩
    else
      let new_tmpdir := computed_new_tmpdir original_tmpdir sub_dir_name
      let m := mkdir fs w new_tmpdir 0o700
      if mkdir_aborts m.1 then ⟨env, m.2, [], false⟩
      else
        let ev0 := if m.1 = .created then Event.mkdirCreated new_tmpdir 0o700
                   else Event.mkdirAlreadyExists new_tmpdir
        if !w.setenvRedirectOk then ⟨env, m.2, [ev0], false⟩
        else
          let env2 : Env := ⟨some new_tmpdir⟩
          let evp := Event.printDiag env2.tmpdir
          let ev1 := Event.callback env2.tmpdir
          if !w.callbackReturns then ⟨env2, m.2, [ev0, evp, ev1], true⟩
          else
            let env3 := if w.setenvRestoreOk then (⟨some original_tmpdir⟩ : Env) else env2
            ⟨env3, m.2, [ev0, evp, ev1], false⟩

/-- Whether an event is the diagnostic print. -/
def isPrintDiag : Event → Bool
  | .printDiag _ => true
  | _ => false

/-- Whether the callback was invoked during a call. -/
def callback_invoked (r : Result) : Bool :=
  r.events.any fun e =>
    match e with
    | .callback _ => true
    | _ => false

/-- C1: the claim states the redirect path written into TMPDIR for an
original value without a trailing separator is original + "/" + subdir +
"/". The code undersizes the buffer by two bytes in that case, so
`snprintf` truncates: for original "/tmp" and subdir ".ultra" the stored
path is "/tmp/.ultr", not "/tmp/.ultra/". -/
theorem c1_snprintf_truncates :
    computed_new_tmpdir "/tmp".data ".ultra".data = "/tmp/.ultr".data ∧
    "/tmp/.ultr".data ≠ "/tmp/.ultra/".data := by
  decide

/-- C2: the claim states the callback observes TMPDIR equal to the
Computed Redirect Path, in particular "/tmp/.ultra/" for original "/tmp"
and subdir ".ultra". In the code the truncated buffer makes the callback
observe "/tmp/.ultr" instead. -/
theorem c2_callback_sees_truncated_path :
    (set_temporary_tmpdir ".ultra".data ⟨true, none, true, true, true⟩
        ⟨some "/tmp".data⟩ ⟨[]⟩).events
      = [Event.mkdirCreated "/tmp/.ultr".data 0o700,
         Event.callback (some "/tmp/.ultr".data)] ∧
    some "/tmp/.ultr".data ≠ some "/tmp/.ultra/".data := by
  decide

/-- C3: if TMPDIR is unset at entry, the call returns with the environment
unchanged (still unset), the filesystem unchanged (no directory created),
and an empty event trace (the callback never invoked). -/
theorem c3_unset_is_noop (sub : CStr) (w : World) (env : Env) (fs : FS)
    (h : env.tmpdir = none) :
    set_temporary_tmpdir sub w env fs = ⟨env, fs, [], false⟩ := by
  obtain ⟨t⟩ := env
  simp only [Env.tmpdir] at h
  subst h
  rfl

/-- Witness for C3 at a concrete unset environment. -/
theorem c3_unset_is_noop_witness :
    set_temporary_tmpdir ".ultra".data ⟨true, none, true, true, true⟩ ⟨none⟩ ⟨[]⟩
      = ⟨⟨none⟩, ⟨[]⟩, [], false⟩ :=
  c3_unset_is_noop ".ultra".data ⟨true, none, true, true, true⟩ ⟨none⟩ ⟨[]⟩ rfl

/-- C10: if the allocation of the path buffer fails, the call returns
silently: environment unchanged, no directory created, callback never
invoked. -/
theorem c10_malloc_failure_is_noop (sub : CStr) (w : World) (env : Env) (fs : FS)
    (orig : CStr) (henv : env.tmpdir = some orig) (hm : w.mallocOk = false) :
    set_temporary_tmpdir sub w env fs = ⟨env, fs, [], false⟩ := by
  obtain ⟨t⟩ := env
  simp only [Env.tmpdir] at henv
  subst henv
  simp [set_temporary_tmpdir, hm]

/-- Witness for C10 at a concrete input with a failing allocation. -/
theorem c10_malloc_failure_is_noop_witness :
    set_temporary_tmpdir ".ultra".data ⟨false, none, true, true, true⟩
        ⟨some "/tmp".data⟩ ⟨[]⟩
      = ⟨⟨some "/tmp".data⟩, ⟨[]⟩, [], false⟩ :=
  c10_malloc_failure_is_noop ".ultra".data ⟨false, none, true, true, true⟩
    ⟨some "/tmp".data⟩ ⟨[]⟩ "/tmp".data rfl rfl

/-- C4: if directory creation fails with an errno other than EEXIST, the
call aborts: environment unchanged, filesystem unchanged, no callback. -/
theorem c4_mkdir_failure_aborts (sub orig : CStr) (w : World) (env : Env) (fs : FS) (e : Nat)
    (henv : env.tmpdir = some orig) (hm : w.mallocOk = true)
    (herr : w.mkdirErrno = some e) (hne : e ≠ EEXIST)
    (hdir : dirExists fs (computed_new_tmpdir orig sub) = false) :
    set_temporary_tmpdir sub w env fs = ⟨env, fs, [], false⟩ := by
  obtain ⟨t⟩ := env
  simp only [Env.tmpdir] at henv
  subst henv
  simp [set_temporary_tmpdir, hm, mkdir, hdir, herr, mkdir_aborts, hne]

/-- Witness for C4: mkdir failing with EACCES (13) at a concrete input. -/
theorem c4_mkdir_failure_aborts_witness :
    set_temporary_tmpdir ".ultra".data ⟨true, some 13, true, true, true⟩
        ⟨some "/tmp".data⟩ ⟨[]⟩
      = ⟨⟨some "/tmp".data⟩, ⟨[]⟩, [], false⟩ :=
  c4_mkdir_failure_aborts ".ultra".data "/tmp".data ⟨true, some 13, true, true, true⟩
    ⟨some "/tmp".data⟩ ⟨[]⟩ 13 rfl rfl rfl (by decide) rfl

/-- C5: for a successful call (TMPDIR set, the mkdir abort test passing,
both setenv calls succeeding, callback returning normally), the TMPDIR
value after the call equals its value before the call. -/
theorem c5_tmpdir_restored (sub orig : CStr) (w : World) (env : Env) (fs : FS)
    (henv : env.tmpdir = some orig) (hm : w.mallocOk = true)
    (hmk : mkdir_aborts (mkdir fs w (computed_new_tmpdir orig sub) 0o700).1 = false)
    (hs1 : w.setenvRedirectOk = true) (hcb : w.callbackReturns = true)
    (hs2 : w.setenvRestoreOk = true) :
    (set_temporary_tmpdir sub w env fs).env = env := by
  obtain ⟨t⟩ := env
  simp only [Env.tmpdir] at henv
  subst henv
  simp [set_temporary_tmpdir, hm, hmk, hs1, hcb, hs2]

/-- Witness for C5 at a concrete successful call. -/
theorem c5_tmpdir_restored_witness :
    (set_temporary_tmpdir ".ultra".data ⟨true, none, true, true, true⟩
        ⟨some "/tmp".data⟩ ⟨[]⟩).env
      = ⟨some "/tmp".data⟩ :=
  c5_tmpdir_restored ".ultra".data "/tmp".data ⟨true, none, true, true, true⟩
    ⟨some "/tmp".data⟩ ⟨[]⟩ rfl rfl (by decide) rfl rfl rfl

/-- C6 counterexample: a call in which the callback is invoked and then
terminates abnormally never reaches the restoring setenv, so the function
does not restore TMPDIR and the redirected value stays visible. -/
theorem c6_counterexample_abnormal_termination :
    callback_invoked (set_temporary_tmpdir ".ultra".data ⟨true, none, true, true, false⟩
        ⟨some "/tmp".data⟩ ⟨[]⟩) = true ∧
    (set_temporary_tmpdir ".ultra".data ⟨true, none, true, true, false⟩
        ⟨some "/tmp".data⟩ ⟨[]⟩).env ≠ ⟨some "/tmp".data⟩ := by
  decide

/-- C6 amended: whenever the callback is invoked and returns normally, and
the restoring setenv succeeds, TMPDIR is restored to its original value
before the function returns. -/
theorem c6_restored_on_normal_return (sub : CStr) (w : World) (env : Env) (fs : FS)
    (hcb : callback_invoked (set_temporary_tmpdir sub w env fs) = true)
    (hret : w.callbackReturns = true) (hs2 : w.setenvRestoreOk = true) :
    (set_temporary_tmpdir sub w env fs).env = env := by
  obtain ⟨t⟩ := env
  obtain ⟨mo, me, s1, s2, cr⟩ := w
  simp only [World.callbackReturns] at hret
  simp only [World.setenvRestoreOk] at hs2
  subst hret
  subst hs2
  cases t with
  | none => rfl
  | some orig =>
    cases mo with
    | false => rfl
    | true =>
      cases s1 with
      | false => simp [set_temporary_tmpdir, apply_ite]
      | true => simp [set_temporary_tmpdir, apply_ite]

/-- Witness for C6 amended at a concrete call with a normally returning
callback. -/
theorem c6_restored_on_normal_return_witness :
    (set_temporary_tmpdir ".ultra".data ⟨true, none, true, true, true⟩
        ⟨some "/tmp".data⟩ ⟨[]⟩).env
      = ⟨some "/tmp".data⟩ :=
  c6_restored_on_normal_return ".ultra".data ⟨true, none, true, true, true⟩
    ⟨some "/tmp".data⟩ ⟨[]⟩ (by decide) rfl rfl

/-- C7: running the routine twice in sequence (same subdirectory name,
directory initially absent, every environmental operation succeeding): the
second call starts from the restored TMPDIR, observes the directory as
already existing, treats that as success, leaves the filesystem and
environment exactly as after the first call, and invokes the callback with
the same redirected value as the first call. -/
theorem c7_second_call_idempotent (sub orig : CStr) (w : World) (env : Env) (fs : FS)
    (henv : env.tmpdir = some orig)
    (hdir : dirExists fs (computed_new_tmpdir orig sub) = false)
    (hm : w.mallocOk = true) (hmk : w.mkdirErrno = none)
    (hs1 : w.setenvRedirectOk = true) (hs2 : w.setenvRestoreOk = true)
    (hcr : w.callbackReturns = true) :
    (let r1 := set_temporary_tmpdir sub w env fs
     let r2 := set_temporary_tmpdir sub w r1.env r1.fs
     r2.fs = r1.fs ∧ r2.env = r1.env ∧
       r1.events = [Event.mkdirCreated (computed_new_tmpdir orig sub) 0o700,
                    Event.callback (some (computed_new_tmpdir orig sub))] ∧
       r2.events = [Event.mkdirAlreadyExists (computed_new_tmpdir orig sub),
                    Event.callback (some (computed_new_tmpdir orig sub))]) := by
  obtain ⟨t⟩ := env
  obtain ⟨mo, me, s1, s2, cr⟩ := w
  simp only [Env.tmpdir] at henv
  simp only [World.mallocOk] at hm
  simp only [World.mkdirErrno] at hmk
  simp only [World.setenvRedirectOk] at hs1
  simp only [World.setenvRestoreOk] at hs2
  simp only [World.callbackReturns] at hcr
  subst henv
  subst hm
  subst hmk
  subst hs1
  subst hs2
  subst hcr
  simp only [dirExists] at hdir
  have hr1 : set_temporary_tmpdir sub ⟨true, none, true, true, true⟩ ⟨some orig⟩ fs
      = ⟨⟨some orig⟩, ⟨(computed_new_tmpdir orig sub, 0o700) :: fs.dirs⟩,
         [Event.mkdirCreated (computed_new_tmpdir orig sub) 0o700,
          Event.callback (some (computed_new_tmpdir orig sub))], false⟩ := by
    simp [set_temporary_tmpdir, mkdir, dirExists, hdir, mkdir_aborts]
  have hr2 : set_temporary_tmpdir sub ⟨true, none, true, true, true⟩ ⟨some orig⟩
        ⟨(computed_new_tmpdir orig sub, 0o700) :: fs.dirs⟩
      = ⟨⟨some orig⟩, ⟨(computed_new_tmpdir orig sub, 0o700) :: fs.dirs⟩,
         [Event.mkdirAlreadyExists (computed_new_tmpdir orig sub),
          Event.callback (some (computed_new_tmpdir orig sub))], false⟩ := by
    simp [set_temporary_tmpdir, mkdir, dirExists, mkdir_aborts]
  simp [hr1, hr2]

/-- Witness for C7 at a concrete pair of calls. -/
theorem c7_second_call_idempotent_witness :
    (let r1 := set_temporary_tmpdir ".ultra".data ⟨true, none, true, true, true⟩
        ⟨some "/tmp".data⟩ ⟨[]⟩
     let r2 := set_temporary_tmpdir ".ultra".data ⟨true, none, true, true, true⟩ r1.env r1.fs
     r2.fs = r1.fs ∧ r2.env = r1.env ∧
       r1.events = [Event.mkdirCreated (computed_new_tmpdir "/tmp".data ".ultra".data) 0o700,
                    Event.callback (some (computed_new_tmpdir "/tmp".data ".ultra".data))] ∧
       r2.events = [Event.mkdirAlreadyExists (computed_new_tmpdir "/tmp".data ".ultra".data),
                    Event.callback (some (computed_new_tmpdir "/tmp".data ".ultra".data))]) :=
  c7_second_call_idempotent ".ultra".data "/tmp".data ⟨true, none, true, true, true⟩
    ⟨some "/tmp".data⟩ ⟨[]⟩ rfl rfl rfl rfl rfl rfl rfl

/-- C8: the two `set_temporary_tmpdir` routines (hook and indirect source
files) are behaviourally equivalent: same final environment, same
filesystem, same abnormal-termination status, and the same event trace
once the diagnostic print of the indirect version is erased. -/
theorem c8_hook_indirect_equivalent (sub : CStr) (w : World) (env : Env) (fs : FS) :
    (set_temporary_tmpdir_indirect sub w env fs).env = (set_temporary_tmpdir sub w env fs).env ∧
    (set_temporary_tmpdir_indirect sub w env fs).fs = (set_temporary_tmpdir sub w env fs).fs ∧
    (set_temporary_tmpdir_indirect sub w env fs).aborted
      = (set_temporary_tmpdir sub w env fs).aborted ∧
    ((set_temporary_tmpdir_indirect sub w env fs).events.filter fun e => !isPrintDiag e)
      = (set_temporary_tmpdir sub w env fs).events := by
  obtain ⟨t⟩ := env
  cases t with
  | none => exact ⟨rfl, rfl, rfl, rfl⟩
  | some orig =>
    obtain ⟨mo, me, s1, s2, cr⟩ := w
    cases mo with
    | false => exact ⟨rfl, rfl, rfl, rfl⟩
    | true =>
      rcases hmk : mkdir fs ⟨true, me, s1, s2, cr⟩ (computed_new_tmpdir orig sub) 0o700
        with ⟨out, fs2⟩
      cases out with
      | created =>
        cases s1 <;> cases cr <;> cases s2 <;>
          simp [set_temporary_tmpdir, set_temporary_tmpdir_indirect, hmk, mkdir_aborts,
            isPrintDiag]
      | failed e =>
        by_cases he : e = EEXIST
        · subst he
          cases s1 <;> cases cr <;> cases s2 <;>
            simp [set_temporary_tmpdir, set_temporary_tmpdir_indirect, hmk, mkdir_aborts,
              isPrintDiag]
        · cases s1 <;> cases cr <;> cases s2 <;>
            simp [set_temporary_tmpdir, set_temporary_tmpdir_indirect, hmk, mkdir_aborts,
              he, isPrintDiag]

/-- C9 counterexample: for the empty original value the source reads index
`strlen - 1` computed in `size_t`, which is 2^64 - 1: that read is out of
bounds, not in bounds as the claim states. -/
theorem c9_counterexample_empty_read_oob :
    index_in_bounds ([] : CStr) (trailing_index (strlen ([] : CStr))) = false := by
  decide

/-- C9 amended: the trailing-separator read at index `strlen - 1` (in
`size_t` arithmetic) is in bounds exactly when the original value is a
non-empty string. -/
theorem c9_trailing_read_in_bounds_iff (s : CStr) :
    index_in_bounds s (trailing_index (strlen s)) = true ↔ s ≠ [] := by
  cases s with
  | nil => decide
  | cons c t =>
    have h2 : t.length + 1 + (SIZE_T_MOD - 1) = t.length + SIZE_T_MOD := by
      show t.length + 1 + (18446744073709551616 - 1) = t.length + 18446744073709551616
      omega
    have h1 : trailing_index (t.length + 1) = t.length % SIZE_T_MOD := by
      simp only [trailing_index, h2, Nat.add_mod_right]
    have h3 : t.length % SIZE_T_MOD ≤ t.length + 1 :=
      le_trans (Nat.mod_le _ _) (Nat.le_succ _)
    simp [index_in_bounds, strlen, h1, h3]

end Ultra
